import Mathlib

/-!
# esp32_web-serial: the activity-aware byte relay of `src/main.cpp`

A shallow embedding of the three pieces of `main.cpp` that touch the relay
state, and the properties of the specification that concern them:

* `ledControlTask`   (lines 24-42): one pass of the body of its `while (true)`;
* `onWebSocketEvent` (lines 48-69): the WebSocket callback;
* `loop`             (lines 208-227): one iteration of the Arduino main loop.

The program state is made explicit in `World`: the two global timestamps, the
two UARTs (`Serial`, the diagnostic console, and `Serial1`, the hardware
peripheral), the payloads handed to `ws.textAll`, and the GPIO output levels.
The clock is an input: every operation receives the uptime (in ms) at which
it reads `millis()`.
-/

namespace WebSerial

/-! ## Platform -/

/-- One `uint8_t`. -/
abbrev Byte := Fin 256

/-- `unsigned long` has 32 bits on the ESP32: its values are taken modulo this number. -/
def ULONG_MOD : Nat := 2 ^ 32

/-- `#define LED_RX_PIN 2` -/
def LED_RX_PIN : Nat := 2

/-- `#define LED_TX_PIN 4` -/
def LED_TX_PIN : Nat := 4

/-- `#define LED_ON_DURATION_MS 20` -/
def LED_ON_DURATION_MS : Nat := 20

/-- Arduino `HIGH`. -/
def HIGH : Bool := true

/-- Arduino `LOW`. -/
def LOW : Bool := false

/-- The Arduino core's `millis()`: the uptime in milliseconds, truncated to `unsigned long`.
The argument is the (unbounded) number of milliseconds since boot. -/
def millis (uptime : Nat) : Nat := uptime % ULONG_MOD

/-- Subtraction of two `unsigned long` values, as C computes it: modulo `2^32`. -/
def ulSub (a b : Nat) : Nat := (a % ULONG_MOD + ULONG_MOD - b % ULONG_MOD) % ULONG_MOD

/-- Conversion of an `int` to `uint8_t`, as done by `HardwareSerial::write(int)`. -/
def toUint8 (n : Int) : Byte := ⟨(n % 256).toNat, by omega⟩

/-- The bytes of an ASCII string literal. -/
def strBytes (s : String) : List Byte :=
  s.toList.map (fun c => ⟨c.toNat % 256, Nat.mod_lt _ (by decide)⟩)

/-- A UART as the program sees it: `rx` holds the bytes that have arrived and were not read
yet (oldest first), `tx` every byte written so far (oldest first). -/
structure HardwareSerial where
  rx : List Byte
  tx : List Byte

namespace HardwareSerial

/-- `available()`: the number of bytes waiting in the receive buffer. -/
def available (s : HardwareSerial) : Nat := s.rx.length

/-- `read()`: removes and returns the oldest received byte, or returns -1 when there is none. -/
def read (s : HardwareSerial) : Int × HardwareSerial :=
  match s.rx with
  | [] => (-1, s)
  | b :: rest => ((b.val : Int), { s with rx := rest })

/-- `readBytes(buf, n)` when no byte arrives meanwhile: moves up to `n` received bytes into `buf`. -/
def readBytes (s : HardwareSerial) (n : Nat) : List Byte × HardwareSerial :=
  (s.rx.take n, { s with rx := s.rx.drop n })

/-- `write(uint8_t)`: sends one byte. -/
def write (s : HardwareSerial) (c : Byte) : HardwareSerial :=
  { s with tx := s.tx ++ [c] }

/-- `write(int)`: sends the value converted to `uint8_t`. -/
def writeInt (s : HardwareSerial) (n : Int) : HardwareSerial :=
  s.write (toUint8 n)

/-- `write(buf, len)`: sends the first `len` bytes of `buf`. -/
def writeBuf (s : HardwareSerial) (buf : List Byte) (len : Nat) : HardwareSerial :=
  { s with tx := s.tx ++ buf.take len }

/-- `println(str)`: sends the string followed by CR LF. -/
def println (s : HardwareSerial) (str : String) : HardwareSerial :=
  { s with tx := s.tx ++ (strBytes str ++ [13, 10]) }

end HardwareSerial

/-- The event types of the WebSocket library (`AwsEventType` of ESPAsyncWebServer). -/
inductive AwsEventType
  | WS_EVT_CONNECT
  | WS_EVT_DISCONNECT
  | WS_EVT_PONG
  | WS_EVT_ERROR
  | WS_EVT_DATA
deriving DecidableEq, Repr

open AwsEventType

/-! ## Program state -/

/-- The state the relay reads and writes. `wsSent` lists the payload of every `ws.textAll`
call made so far; `pins` is the level last driven on each GPIO. -/
structure World where
  lastTxTime : Nat
  lastRxTime : Nat
  Serial : HardwareSerial
  Serial1 : HardwareSerial
  wsSent : List (List Byte)
  pins : Nat → Bool

/-- The state after static initialisation: `lastTxTime = 0`, `lastRxTime = 0`, nothing received,
nothing sent, all outputs low. -/
def bootWorld : World :=
  { lastTxTime := 0, lastRxTime := 0,
    Serial := ⟨[], []⟩, Serial1 := ⟨[], []⟩,
    wsSent := [], pins := fun _ => LOW }

/-- `digitalWrite(pin, val)`. -/
def digitalWrite (pin : Nat) (val : Bool) (w : World) : World :=
  { w with pins := fun p => if p = pin then val else w.pins p }

/-! ## `ledControlTask` -/

/-- One pass of the body of `while (true)` in `ledControlTask`. The two calls of `millis()`
happen at uptimes `tRx` and `tTx`. -/
def ledControlTaskTick (tRx tTx : Nat) (w : World) : World :=
  let w :=
    if ulSub (millis tRx) w.lastRxTime < LED_ON_DURATION_MS then
      digitalWrite LED_RX_PIN HIGH w
    else
      digitalWrite LED_RX_PIN LOW w
  if ulSub (millis tTx) w.lastTxTime < LED_ON_DURATION_MS then
    digitalWrite LED_TX_PIN HIGH w
  else
    digitalWrite LED_TX_PIN LOW w

/-! ## `onWebSocketEvent` -/

/-- The callback `onWebSocketEvent(server, client, type, arg, data, len)`; `t` is the uptime at
which it reads `millis()`. The arguments `server`, `client` and `arg` are not used by the body. -/
def onWebSocketEvent (type : AwsEventType) (data : List Byte) (len : Nat) (t : Nat)
    (w : World) : World :=
  if type = WS_EVT_CONNECT then
    { w with Serial := w.Serial.println "WebSocket client connected" }
  else if type = WS_EVT_DISCONNECT then
    { w with Serial := w.Serial.println "WebSocket client disconnected" }
  else if type = WS_EVT_ERROR then
    { w with Serial := w.Serial.println "WebSocket error" }
  else if type = WS_EVT_DATA then
    let w := { w with Serial := w.Serial.println "WebSocket data received" }
    let w :=
      if len = 0 then
        { w with Serial1 := w.Serial1.write 10 }
      else
        { w with Serial1 := w.Serial1.writeBuf data len }
    { w with lastTxTime := millis t }
  else
    w

/-! ## `loop` -/

/-- The wait at the top of `loop()`: `while (!(Serial.available() || Serial1.available())) delay(1);`.
`fuel` bounds the number of times the condition is tested; `none` means the loop is still waiting.
Nothing this task does while waiting changes the state. -/
def waitForData : Nat → World → Option World
  | 0, _ => none
  | fuel + 1, w =>
    if ¬ (w.Serial.available ≠ 0 ∨ w.Serial1.available ≠ 0) then
      waitForData fuel w
    else
      some w

/-- The block `if (Serial1.available()) { ... }` of `loop()` (lines 214-222). The buffer
obtained from `malloc` is the list `buf`. -/
def loopSerial1Branch (t : Nat) (w : World) : World :=
  if w.Serial1.available ≠ 0 then
    let buf_len := w.Serial1.available
    let r := w.Serial1.readBytes buf_len
    let buf := r.1
    let w := { w with Serial1 := r.2 }
    let w := { w with Serial := w.Serial.writeBuf buf buf_len }
    let w := { w with wsSent := w.wsSent ++ [buf.take buf_len] }
    { w with lastRxTime := millis t }
  else
    w

/-- The block `if (Serial.available()) { Serial1.write(Serial.read()); }` of `loop()`. -/
def loopSerialBranch (w : World) : World :=
  if w.Serial.available ≠ 0 then
    let r := w.Serial.read
    let w := { w with Serial := r.2 }
    { w with Serial1 := w.Serial1.writeInt r.1 }
  else
    w

/-- One iteration of `loop()`; `t` is the uptime at which it reads `millis()`. -/
def loop (fuel : Nat) (t : Nat) (w : World) : Option World :=
  match waitForData fuel w with
  | none => none
  | some w => some (loopSerialBranch (loopSerial1Branch t w))

/-! ## Directions, operations and executions -/

/-- The two relay directions: `uplink` is WebSocket to peripheral (timestamp `lastTxTime`,
LED on `LED_TX_PIN`), `downlink` is peripheral to WebSocket (timestamp `lastRxTime`, LED on
`LED_RX_PIN`). -/
inductive Direction
  | uplink
  | downlink
deriving DecidableEq, Repr

/-- The timestamp variable of a direction. -/
def Direction.stamp : Direction → World → Nat
  | .uplink, w => w.lastTxTime
  | .downlink, w => w.lastRxTime

/-- The LED pin of a direction. -/
def Direction.led : Direction → Nat
  | .uplink => LED_TX_PIN
  | .downlink => LED_RX_PIN

/-- The uptime at which a pass of `ledControlTask` reads `millis()` for a direction
(the first call is for `lastRxTime`, the second for `lastTxTime`). -/
def Direction.tickTime : Direction → Nat → Nat → Nat
  | .uplink, _, tTx => tTx
  | .downlink, tRx, _ => tRx

/-- The operations that make up an execution: a call of `onWebSocketEvent`, an iteration of
`loop()`, a pass of `ledControlTask` (whose second `millis()` call comes `dt` ms after the
first), and the arrival of bytes at either UART. -/
inductive Op
  | wsEvent (type : AwsEventType) (data : List Byte) (len : Nat)
  | loopIter (fuel : Nat)
  | ledTick (dt : Nat)
  | consoleInput (bytes : List Byte)
  | peripheralInput (bytes : List Byte)

/-- Runs one operation at uptime `t`; `none` when an iteration of `loop()` does not get past
its wait. -/
def Op.apply : Op → Nat → World → Option World
  | .wsEvent type data len, t, w => some (onWebSocketEvent type data len t w)
  | .loopIter fuel, t, w => loop fuel t w
  | .ledTick dt, t, w => some (ledControlTaskTick t (t + dt) w)
  | .consoleInput bytes, _, w =>
    some { w with Serial := { w.Serial with rx := w.Serial.rx ++ bytes } }
  | .peripheralInput bytes, _, w =>
    some { w with Serial1 := { w.Serial1 with rx := w.Serial1.rx ++ bytes } }

/-- Whether an operation, started in state `w`, is a relay event of direction `d`: an uplink
event is a call of `onWebSocketEvent` with `WS_EVT_DATA`, a downlink event is an iteration of
`loop()` that finds bytes on `Serial1`. -/
def isRelayEvent (d : Direction) (w : World) : Op → Bool
  | .wsEvent type _ _ => decide (d = .uplink ∧ type = WS_EVT_DATA)
  | .loopIter _ => decide (d = .downlink ∧ w.Serial1.available ≠ 0)
  | _ => false

/-- An operation together with the uptime at which it runs. -/
abbrev Step := Op × Nat

/-- Runs the steps in order. -/
def exec : List Step → World → Option World
  | [], w => some w
  | (op, t) :: rest, w =>
    match op.apply t w with
    | none => none
    | some w' => exec rest w'

/-- The uptime of the last relay event of direction `d` among the steps run from `w`
(`acc` when there is none). -/
def lastEventTime (d : Direction) : Option Nat → List Step → World → Option Nat
  | acc, [], _ => acc
  | acc, (op, t) :: rest, w =>
    lastEventTime d (if isRelayEvent d w op then some t else acc) rest
      ((op.apply t w).getD w)

/-- The states an execution goes through, the starting state first; it ends where a step
does not complete. -/
def trace : List Step → World → List World
  | [], w => [w]
  | (op, t) :: rest, w =>
    match op.apply t w with
    | none => [w]
    | some w' => w :: trace rest w'

/-- From each state of the list to the next, neither timestamp decreases. -/
def StampsNeverDecrease (ws : List World) : Prop :=
  List.Chain' (fun a b => a.lastTxTime ≤ b.lastTxTime ∧ a.lastRxTime ≤ b.lastRxTime) ws

/-- An execution that crosses the wrap of the 32-bit millisecond clock: a first empty
WebSocket payload one millisecond before the wrap, a second one six milliseconds later. -/
def wrapRun : List Step :=
  [(.wsEvent WS_EVT_DATA [] 0, 4294967295), (.wsEvent WS_EVT_DATA [] 0, 4294967301)]

/-- A sample execution: two bursts from the peripheral relayed 10 ms apart, then an inbound
empty payload and a pass of the LED task. -/
def sampleRun : List Step :=
  [(.peripheralInput [65, 84], 90), (.loopIter 1, 100),
   (.peripheralInput [13, 10], 105), (.loopIter 1, 110),
   (.wsEvent WS_EVT_DATA [] 0, 112), (.ledTick 0, 113)]

/-- A sample execution shortly before the wrap of the 32-bit millisecond clock: a burst
arrives from the peripheral and is relayed at 4294967290 ms of uptime. -/
def wrapBurstRun : List Step :=
  [(.peripheralInput [65, 84], 4294967280), (.loopIter 1, 4294967290)]

/-! ## The clock -/

theorem millis_lt (t : Nat) : millis t < ULONG_MOD :=
  Nat.mod_lt _ (by decide)

theorem ulSub_of_le {a b : Nat} (ha : a < ULONG_MOD) (hb : b ≤ a) : ulSub a b = a - b := by
  simp only [ulSub, ULONG_MOD] at *
  omega

theorem ulSub_millis_of_le {a b : Nat} (h : millis b ≤ millis a) :
    ulSub (millis a) (millis b) = millis a - millis b :=
  ulSub_of_le (millis_lt a) h

theorem ulSub_self_millis (t : Nat) : ulSub (millis t) (millis t) = 0 := by
  rw [ulSub_millis_of_le (le_refl _)]
  exact Nat.sub_self _

theorem ulSub_elapsed {t d : Nat} (ht : t < ULONG_MOD) (hd : d < ULONG_MOD) :
    ulSub (millis (t + d)) t = d := by
  simp only [ulSub, millis, ULONG_MOD] at *
  omega

theorem ulSub_uptimes {t now : Nat} (hafter : t ≤ now) (hperiod : now - t < ULONG_MOD) :
    ulSub (millis now) (millis t) = now - t := by
  simp only [ulSub, millis, ULONG_MOD] at *
  omega

/-! ## What a pass of `ledControlTask` drives -/

theorem tick_pins_rx (tRx tTx : Nat) (w : World) :
    (ledControlTaskTick tRx tTx w).pins LED_RX_PIN =
      if ulSub (millis tRx) w.lastRxTime < LED_ON_DURATION_MS then HIGH else LOW := by
  unfold ledControlTaskTick
  by_cases h1 : ulSub (millis tRx) w.lastRxTime < LED_ON_DURATION_MS <;>
    by_cases h2 : ulSub (millis tTx) w.lastTxTime < LED_ON_DURATION_MS <;>
    simp [h1, h2, digitalWrite, LED_RX_PIN, LED_TX_PIN]

theorem tick_pins_tx (tRx tTx : Nat) (w : World) :
    (ledControlTaskTick tRx tTx w).pins LED_TX_PIN =
      if ulSub (millis tTx) w.lastTxTime < LED_ON_DURATION_MS then HIGH else LOW := by
  unfold ledControlTaskTick
  by_cases h1 : ulSub (millis tRx) w.lastRxTime < LED_ON_DURATION_MS <;>
    by_cases h2 : ulSub (millis tTx) w.lastTxTime < LED_ON_DURATION_MS <;>
    simp [h1, h2, digitalWrite, LED_RX_PIN, LED_TX_PIN]

theorem tick_pins_led (d : Direction) (tRx tTx : Nat) (w : World) :
    (ledControlTaskTick tRx tTx w).pins d.led =
      if ulSub (millis (d.tickTime tRx tTx)) (d.stamp w) < LED_ON_DURATION_MS
      then HIGH else LOW := by
  cases d
  · exact tick_pins_tx tRx tTx w
  · exact tick_pins_rx tRx tTx w

theorem tick_stamps (tRx tTx : Nat) (w : World) :
    (ledControlTaskTick tRx tTx w).lastTxTime = w.lastTxTime ∧
      (ledControlTaskTick tRx tTx w).lastRxTime = w.lastRxTime := by
  unfold ledControlTaskTick
  by_cases h1 : ulSub (millis tRx) w.lastRxTime < LED_ON_DURATION_MS <;>
    by_cases h2 : ulSub (millis tTx) w.lastTxTime < LED_ON_DURATION_MS <;>
    simp [h1, h2, digitalWrite]

/-! ## Effect of the relay operations on the timestamps -/

theorem ws_lastRxTime (type : AwsEventType) (data : List Byte) (len t : Nat) (w : World) :
    (onWebSocketEvent type data len t w).lastRxTime = w.lastRxTime := by
  unfold onWebSocketEvent
  cases type <;> by_cases h : len = 0 <;> simp [h]

theorem ws_lastTxTime (type : AwsEventType) (data : List Byte) (len t : Nat) (w : World) :
    (onWebSocketEvent type data len t w).lastTxTime =
      if type = WS_EVT_DATA then millis t else w.lastTxTime := by
  unfold onWebSocketEvent
  cases type <;> by_cases h : len = 0 <;> simp [h]

theorem loopSerialBranch_stamps (w : World) :
    (loopSerialBranch w).lastTxTime = w.lastTxTime ∧
      (loopSerialBranch w).lastRxTime = w.lastRxTime := by
  unfold loopSerialBranch
  by_cases h : w.Serial.available ≠ 0 <;> simp [h]

theorem loopSerial1Branch_lastTxTime (t : Nat) (w : World) :
    (loopSerial1Branch t w).lastTxTime = w.lastTxTime := by
  unfold loopSerial1Branch
  by_cases h : w.Serial1.available ≠ 0 <;> simp [h]

theorem loopSerial1Branch_lastRxTime (t : Nat) (w : World) :
    (loopSerial1Branch t w).lastRxTime =
      if w.Serial1.available ≠ 0 then millis t else w.lastRxTime := by
  unfold loopSerial1Branch
  by_cases h : w.Serial1.available ≠ 0 <;> simp [h]

theorem waitForData_eq {fuel : Nat} {w w' : World} (h : waitForData fuel w = some w') :
    w' = w := by
  induction fuel with
  | zero => simp [waitForData] at h
  | succ n ih =>
    unfold waitForData at h
    by_cases hc : ¬ (w.Serial.available ≠ 0 ∨ w.Serial1.available ≠ 0)
    · rw [if_pos hc] at h
      exact ih h
    · rw [if_neg hc] at h
      exact (Option.some.inj h).symm

theorem waitForData_ready (fuel : Nat) (w : World)
    (h : w.Serial.available ≠ 0 ∨ w.Serial1.available ≠ 0) :
    waitForData (fuel + 1) w = some w := by
  unfold waitForData
  rw [if_neg (not_not.mpr h)]

theorem waitForData_blocked (fuel : Nat) (w : World)
    (h : ¬ (w.Serial.available ≠ 0 ∨ w.Serial1.available ≠ 0)) :
    waitForData fuel w = none := by
  induction fuel with
  | zero => rfl
  | succ n ih =>
    unfold waitForData
    rw [if_pos h]
    exact ih

theorem loop_eq {fuel t : Nat} {w w' : World} (h : loop fuel t w = some w') :
    w' = loopSerialBranch (loopSerial1Branch t w) := by
  unfold loop at h
  cases hw : waitForData fuel w with
  | none => simp [hw] at h
  | some w1 =>
    have e := waitForData_eq hw
    subst e
    simp only [hw] at h
    exact (Option.some.inj h).symm

theorem loop_ready (fuel t : Nat) (w : World)
    (h : w.Serial.available ≠ 0 ∨ w.Serial1.available ≠ 0) :
    loop (fuel + 1) t w = some (loopSerialBranch (loopSerial1Branch t w)) := by
  unfold loop
  rw [waitForData_ready fuel w h]

/-! ## Inbound path: `onWebSocketEvent` -/

/-- C2: a call of `onWebSocketEvent` with `WS_EVT_DATA` and `len = 0` writes exactly the one
byte 0x0A to `Serial1`, sets `lastTxTime` to the clock reading of that time, and a pass of
`ledControlTask` reading the clock at that same time drives the uplink LED HIGH. -/
theorem empty_payload_sends_line_feed (data : List Byte) (t tRx : Nat) (w : World) :
    (onWebSocketEvent WS_EVT_DATA data 0 t w).Serial1.tx = w.Serial1.tx ++ [(10 : Byte)] ∧
    (onWebSocketEvent WS_EVT_DATA data 0 t w).lastTxTime = millis t ∧
    (ledControlTaskTick tRx t (onWebSocketEvent WS_EVT_DATA data 0 t w)).pins LED_TX_PIN
      = HIGH := by
  have hs : (onWebSocketEvent WS_EVT_DATA data 0 t w).lastTxTime = millis t := by
    rw [ws_lastTxTime]; simp
  refine ⟨?_, hs, ?_⟩
  · simp [onWebSocketEvent, HardwareSerial.write, HardwareSerial.println]
  · rw [tick_pins_tx, hs, ulSub_self_millis]
    simp [LED_ON_DURATION_MS]

/-- C3: a call of `onWebSocketEvent` with `WS_EVT_DATA` and a payload of `len >= 1` bytes
(the first `len` bytes of `data`) writes exactly those `len` bytes to `Serial1`, in order and
with nothing appended, and sets `lastTxTime` to the clock reading of that time. -/
theorem nonempty_payload_sent_verbatim (data : List Byte) (len t : Nat) (w : World)
    (hlen : 1 ≤ len) (hdata : len ≤ data.length) :
    (onWebSocketEvent WS_EVT_DATA data len t w).Serial1.tx = w.Serial1.tx ++ data.take len ∧
    (data.take len).length = len ∧
    (len = data.length →
      (onWebSocketEvent WS_EVT_DATA data len t w).Serial1.tx = w.Serial1.tx ++ data) ∧
    (onWebSocketEvent WS_EVT_DATA data len t w).lastTxTime = millis t := by
  have h0 : len ≠ 0 := by omega
  have htx : (onWebSocketEvent WS_EVT_DATA data len t w).Serial1.tx
      = w.Serial1.tx ++ data.take len := by
    simp [onWebSocketEvent, h0, HardwareSerial.writeBuf, HardwareSerial.println]
  refine ⟨htx, ?_, ?_, ?_⟩
  · simp [List.length_take, hdata]
  · intro e
    rw [htx, e, List.take_length]
  · rw [ws_lastTxTime]; simp

/-- Witness of C3: the payload "ping" (4 bytes) on the boot state. -/
theorem nonempty_payload_sent_verbatim_witness :
    (onWebSocketEvent WS_EVT_DATA [112, 105, 110, 103] 4 7 bootWorld).Serial1.tx
        = bootWorld.Serial1.tx ++ List.take 4 [112, 105, 110, 103] ∧
    (List.take 4 ([112, 105, 110, 103] : List Byte)).length = 4 ∧
    (4 = ([112, 105, 110, 103] : List Byte).length →
      (onWebSocketEvent WS_EVT_DATA [112, 105, 110, 103] 4 7 bootWorld).Serial1.tx
        = bootWorld.Serial1.tx ++ [112, 105, 110, 103]) ∧
    (onWebSocketEvent WS_EVT_DATA [112, 105, 110, 103] 4 7 bootWorld).lastTxTime = millis 7 :=
  nonempty_payload_sent_verbatim [112, 105, 110, 103] 4 7 bootWorld (by decide) (by decide)

/-- C9: a call of `onWebSocketEvent` with `WS_EVT_CONNECT`, `WS_EVT_DISCONNECT` or
`WS_EVT_ERROR` (any `data`, any `len`) writes nothing to `Serial1`, makes no broadcast, leaves
`lastTxTime` and `lastRxTime` unchanged; the whole effect is one line appended to the output of
the console `Serial`. -/
theorem lifecycle_event_only_logs (type : AwsEventType) (data : List Byte) (len t : Nat)
    (w : World)
    (htype : type = WS_EVT_CONNECT ∨ type = WS_EVT_DISCONNECT ∨ type = WS_EVT_ERROR) :
    (onWebSocketEvent type data len t w).Serial1 = w.Serial1 ∧
    (onWebSocketEvent type data len t w).wsSent = w.wsSent ∧
    (onWebSocketEvent type data len t w).lastTxTime = w.lastTxTime ∧
    (onWebSocketEvent type data len t w).lastRxTime = w.lastRxTime ∧
    ∃ line : List Byte,
      onWebSocketEvent type data len t w
        = { w with Serial := { w.Serial with tx := w.Serial.tx ++ (line ++ [13, 10]) } } := by
  rcases htype with h | h | h <;> subst h
  · exact ⟨rfl, rfl, rfl, rfl, strBytes "WebSocket client connected", rfl⟩
  · exact ⟨rfl, rfl, rfl, rfl, strBytes "WebSocket client disconnected", rfl⟩
  · exact ⟨rfl, rfl, rfl, rfl, strBytes "WebSocket error", rfl⟩

/-- Witness of C9: a `WS_EVT_ERROR` call carrying three bytes on the boot state. -/
theorem lifecycle_event_only_logs_witness :
    (WS_EVT_ERROR = WS_EVT_CONNECT ∨ WS_EVT_ERROR = WS_EVT_DISCONNECT
        ∨ WS_EVT_ERROR = WS_EVT_ERROR) ∧
    (onWebSocketEvent WS_EVT_ERROR [1, 2, 3] 3 50 bootWorld).Serial1 = bootWorld.Serial1 ∧
    (onWebSocketEvent WS_EVT_ERROR [1, 2, 3] 3 50 bootWorld).wsSent = bootWorld.wsSent ∧
    (onWebSocketEvent WS_EVT_ERROR [1, 2, 3] 3 50 bootWorld).lastTxTime
        = bootWorld.lastTxTime ∧
    (onWebSocketEvent WS_EVT_ERROR [1, 2, 3] 3 50 bootWorld).lastRxTime
        = bootWorld.lastRxTime ∧
    ∃ line : List Byte,
      onWebSocketEvent WS_EVT_ERROR [1, 2, 3] 3 50 bootWorld
        = { bootWorld with
            Serial := { bootWorld.Serial with tx := bootWorld.Serial.tx ++ (line ++ [13, 10]) } } :=
  ⟨by decide, lifecycle_event_only_logs WS_EVT_ERROR [1, 2, 3] 3 50 bootWorld (by decide)⟩

/-! ## Outbound path: `loop` -/

theorem loopSerial1Branch_burst (t : Nat) (w : World) (h : w.Serial1.rx ≠ []) :
    loopSerial1Branch t w =
      { w with
        Serial1 := { w.Serial1 with rx := [] }
        Serial := { w.Serial with tx := w.Serial.tx ++ w.Serial1.rx }
        wsSent := w.wsSent ++ [w.Serial1.rx]
        lastRxTime := millis t } := by
  have ha : w.Serial1.available ≠ 0 := by
    simpa [HardwareSerial.available] using h
  unfold loopSerial1Branch
  rw [if_pos ha]
  simp [HardwareSerial.readBytes, HardwareSerial.writeBuf, HardwareSerial.available]

theorem loopSerialBranch_frame (w : World) :
    (loopSerialBranch w).wsSent = w.wsSent ∧
    (loopSerialBranch w).Serial.tx = w.Serial.tx ∧
    (loopSerialBranch w).Serial1.rx = w.Serial1.rx := by
  unfold loopSerialBranch
  by_cases h : w.Serial.available ≠ 0 <;>
    simp [h, HardwareSerial.read, HardwareSerial.writeInt, HardwareSerial.write]
  cases hr : w.Serial.rx <;> simp

theorem toUint8_val (b : Byte) : toUint8 (b.val : Int) = b := by
  apply Fin.ext
  simp only [toUint8]
  have := b.isLt
  omega

/-- C4: an iteration of `loop()` that starts with `n >= 1` bytes `b` waiting on `Serial1`
completes, makes exactly one `ws.textAll` call, with payload `b`, writes `b` to the console
`Serial`, leaves the receive buffer of `Serial1` empty and sets `lastRxTime` to the clock
reading of that time. -/
theorem loop_relays_burst (fuel t : Nat) (w : World) (hb : w.Serial1.rx ≠ []) :
    ∃ w', loop (fuel + 1) t w = some w' ∧
      w'.wsSent = w.wsSent ++ [w.Serial1.rx] ∧
      w'.Serial.tx = w.Serial.tx ++ w.Serial1.rx ∧
      w'.Serial1.rx = [] ∧
      w'.lastRxTime = millis t := by
  have ha : w.Serial1.available ≠ 0 := by
    simpa [HardwareSerial.available] using hb
  refine ⟨_, loop_ready fuel t w (Or.inr ha), ?_, ?_, ?_, ?_⟩
  · rw [(loopSerialBranch_frame _).1, loopSerial1Branch_burst t w hb]
  · rw [(loopSerialBranch_frame _).2.1, loopSerial1Branch_burst t w hb]
  · rw [(loopSerialBranch_frame _).2.2, loopSerial1Branch_burst t w hb]
  · rw [(loopSerialBranch_stamps _).2, loopSerial1Branch_burst t w hb]

/-- Witness of C4: the burst "AT\r\n" waiting on `Serial1` in the boot state. -/
theorem loop_relays_burst_witness :
    ∃ w', loop (0 + 1) 1000 { bootWorld with Serial1 := ⟨[65, 84, 13, 10], []⟩ } = some w' ∧
      w'.wsSent = [[65, 84, 13, 10]] ∧
      w'.Serial.tx = [65, 84, 13, 10] ∧
      w'.Serial1.rx = [] ∧
      w'.lastRxTime = millis 1000 :=
  loop_relays_burst 0 1000 { bootWorld with Serial1 := ⟨[65, 84, 13, 10], []⟩ } (by decide)

/-- C8: an iteration of `loop()` that starts with at least one byte waiting on the console
`Serial` and none on `Serial1` completes, writes exactly one byte to `Serial1`, the first
waiting console byte (which it consumes), makes no broadcast and leaves `lastTxTime` and
`lastRxTime` unchanged. -/
theorem loop_debug_echo (fuel t : Nat) (w : World) (c : Byte) (rest : List Byte)
    (hconsole : w.Serial.rx = c :: rest) (hperipheral : w.Serial1.rx = []) :
    ∃ w', loop (fuel + 1) t w = some w' ∧
      w'.Serial1.tx = w.Serial1.tx ++ [c] ∧
      w'.Serial.rx = rest ∧
      w'.wsSent = w.wsSent ∧
      w'.lastTxTime = w.lastTxTime ∧
      w'.lastRxTime = w.lastRxTime := by
  have ha : w.Serial.available ≠ 0 := by
    simp [HardwareSerial.available, hconsole]
  have h1 : loopSerial1Branch t w = w := by
    simp [loopSerial1Branch, HardwareSerial.available, hperipheral]
  refine ⟨_, loop_ready fuel t w (Or.inl ha), ?_⟩
  rw [h1]
  simp [loopSerialBranch, ha, HardwareSerial.read, hconsole, HardwareSerial.writeInt,
    HardwareSerial.write, toUint8_val]

/-- Witness of C8: the bytes "hi" typed on the console, nothing on `Serial1`. -/
theorem loop_debug_echo_witness :
    ∃ w', loop (0 + 1) 1000 { bootWorld with Serial := ⟨[104, 105], []⟩ } = some w' ∧
      w'.Serial1.tx = [] ++ [104] ∧
      w'.Serial.rx = [105] ∧
      w'.wsSent = [] ∧
      w'.lastTxTime = 0 ∧
      w'.lastRxTime = 0 :=
  loop_debug_echo 0 1000 { bootWorld with Serial := ⟨[104, 105], []⟩ } 104 [105] rfl rfl

/-! ## The two directions do not interfere -/

/-- C5: an uplink event (`onWebSocketEvent` with `WS_EVT_DATA`) leaves `lastRxTime` unchanged
and so does not change what a pass of `ledControlTask` drives on `LED_RX_PIN`; a downlink
event (the `Serial1` block of `loop()`, also when followed by the rest of the iteration)
leaves `lastTxTime` unchanged and so does not change what a pass drives on `LED_TX_PIN`. -/
theorem directions_independent (data : List Byte) (len t tRx tTx : Nat) (w : World) :
    (onWebSocketEvent WS_EVT_DATA data len t w).lastRxTime = w.lastRxTime ∧
    (ledControlTaskTick tRx tTx (onWebSocketEvent WS_EVT_DATA data len t w)).pins LED_RX_PIN
      = (ledControlTaskTick tRx tTx w).pins LED_RX_PIN ∧
    (loopSerial1Branch t w).lastTxTime = w.lastTxTime ∧
    (ledControlTaskTick tRx tTx (loopSerial1Branch t w)).pins LED_TX_PIN
      = (ledControlTaskTick tRx tTx w).pins LED_TX_PIN ∧
    (loopSerialBranch (loopSerial1Branch t w)).lastTxTime = w.lastTxTime ∧
    (ledControlTaskTick tRx tTx (loopSerialBranch (loopSerial1Branch t w))).pins LED_TX_PIN
      = (ledControlTaskTick tRx tTx w).pins LED_TX_PIN := by
  have h1 := ws_lastRxTime WS_EVT_DATA data len t w
  have h2 := loopSerial1Branch_lastTxTime t w
  have h3 : (loopSerialBranch (loopSerial1Branch t w)).lastTxTime = w.lastTxTime := by
    rw [(loopSerialBranch_stamps _).1, h2]
  refine ⟨h1, ?_, h2, ?_, h3, ?_⟩
  · rw [tick_pins_rx, tick_pins_rx, h1]
  · rw [tick_pins_tx, tick_pins_tx, h2]
  · rw [tick_pins_tx, tick_pins_tx, h3]

/-! ## The indicator before the first event -/

/-- C7 as stated fails: in the boot state (`lastTxTime = lastRxTime = 0`, no event yet) a pass
of `ledControlTask` that reads the clock at 5 ms of uptime drives both LEDs HIGH, not LOW; so
does a pass at 4294967301 ms of uptime, where the wrapped clock reads 5 again. -/
theorem boot_tick_at_5_drives_high :
    bootWorld.lastTxTime = 0 ∧ bootWorld.lastRxTime = 0 ∧
    (ledControlTaskTick 5 5 bootWorld).pins LED_RX_PIN = HIGH ∧
    (ledControlTaskTick 5 5 bootWorld).pins LED_TX_PIN = HIGH ∧
    ¬ ((ledControlTaskTick 5 5 bootWorld).pins LED_RX_PIN = LOW ∧
       (ledControlTaskTick 5 5 bootWorld).pins LED_TX_PIN = LOW) ∧
    (ledControlTaskTick 4294967301 4294967301 bootWorld).pins LED_RX_PIN = HIGH ∧
    (ledControlTaskTick 4294967301 4294967301 bootWorld).pins LED_TX_PIN = HIGH := by
  decide

/-- C7, amended: in a state with `lastTxTime = lastRxTime = 0`, a pass of `ledControlTask`
whose clock readings are at least 20 drives both `LED_RX_PIN` and `LED_TX_PIN` LOW. -/
theorem initial_idle_from_20 (w : World) (tRx tTx : Nat)
    (htx : w.lastTxTime = 0) (hrx : w.lastRxTime = 0)
    (hnowRx : LED_ON_DURATION_MS ≤ millis tRx) (hnowTx : LED_ON_DURATION_MS ≤ millis tTx) :
    (ledControlTaskTick tRx tTx w).pins LED_RX_PIN = LOW ∧
    (ledControlTaskTick tRx tTx w).pins LED_TX_PIN = LOW := by
  have e : ∀ t, ulSub (millis t) 0 = millis t := fun t =>
    ulSub_of_le (millis_lt t) (Nat.zero_le _)
  constructor
  · rw [tick_pins_rx, hrx, e, if_neg (Nat.not_lt.mpr hnowRx)]
  · rw [tick_pins_tx, htx, e, if_neg (Nat.not_lt.mpr hnowTx)]

/-- Witness of the amended C7: the boot state, a pass reading the clock at 20 ms and 21 ms. -/
theorem initial_idle_from_20_witness :
    (ledControlTaskTick 20 21 bootWorld).pins LED_RX_PIN = LOW ∧
    (ledControlTaskTick 20 21 bootWorld).pins LED_TX_PIN = LOW :=
  initial_idle_from_20 bootWorld 20 21 rfl rfl (by decide) (by decide)

/-! ## Clock wrap-around -/

/-- C10: with the timestamp `t` of a direction a 32-bit value and a true elapsed time `e`
with `0 <= e < 2^32`, a pass of `ledControlTask` whose clock reading for that direction is
`(t + e) mod 2^32` drives the LED of the direction HIGH if and only if `e < 20`; nothing is
assumed on the order of the reading and `t`. -/
theorem led_high_iff_elapsed_lt (dir : Direction) (w : World) (e tRx tTx : Nat)
    (hstamp : dir.stamp w < ULONG_MOD) (he : e < ULONG_MOD)
    (hnow : millis (dir.tickTime tRx tTx) = (dir.stamp w + e) % ULONG_MOD) :
    ((ledControlTaskTick tRx tTx w).pins dir.led = HIGH ↔ e < LED_ON_DURATION_MS) := by
  have hsub : ulSub (millis (dir.tickTime tRx tTx)) (dir.stamp w) = e := by
    rw [hnow]
    exact ulSub_elapsed hstamp he
  rw [tick_pins_led, hsub]
  by_cases h : e < LED_ON_DURATION_MS <;> simp [h, HIGH, LOW]

/-- Witness of C10 across the wrap: timestamp `2^32 - 6`, elapsed time 10, so the clock reads 4,
which is below the timestamp. -/
theorem led_high_iff_elapsed_lt_witness :
    millis (Direction.downlink.tickTime 4294967300 0) < 4294967290 ∧
    ((ledControlTaskTick 4294967300 0 { bootWorld with lastRxTime := 4294967290 }).pins
        Direction.downlink.led = HIGH ↔ 10 < LED_ON_DURATION_MS) :=
  ⟨by decide,
   led_high_iff_elapsed_lt Direction.downlink { bootWorld with lastRxTime := 4294967290 }
     10 4294967300 0 (by decide) (by decide) (by decide)⟩

/-! ## Executions -/

theorem apply_stamp (d : Direction) (op : Op) (t : Nat) (w w1 : World)
    (h : op.apply t w = some w1) :
    d.stamp w1 = if isRelayEvent d w op = true then millis t else d.stamp w := by
  cases op with
  | wsEvent type data len =>
    have e : w1 = onWebSocketEvent type data len t w := (Option.some.inj h).symm
    subst e
    cases d
    · simp only [Direction.stamp, isRelayEvent, ws_lastTxTime]
      by_cases ht : type = WS_EVT_DATA <;> simp [ht]
    · simp [Direction.stamp, isRelayEvent, ws_lastRxTime]
  | loopIter fuel =>
    have e : w1 = loopSerialBranch (loopSerial1Branch t w) := loop_eq h
    subst e
    cases d
    · simp [Direction.stamp, isRelayEvent, (loopSerialBranch_stamps _).1,
        loopSerial1Branch_lastTxTime]
    · simp only [Direction.stamp, isRelayEvent, (loopSerialBranch_stamps _).2,
        loopSerial1Branch_lastRxTime]
      by_cases ha : w.Serial1.available ≠ 0 <;> simp [ha]
  | ledTick dt =>
    have e : w1 = ledControlTaskTick t (t + dt) w := (Option.some.inj h).symm
    subst e
    cases d
    · simp [Direction.stamp, isRelayEvent, (tick_stamps _ _ _).1]
    · simp [Direction.stamp, isRelayEvent, (tick_stamps _ _ _).2]
  | consoleInput bytes =>
    have e := (Option.some.inj h).symm
    subst e
    cases d <;> simp [Direction.stamp, isRelayEvent]
  | peripheralInput bytes =>
    have e := (Option.some.inj h).symm
    subst e
    cases d <;> simp [Direction.stamp, isRelayEvent]

theorem exec_stamp (d : Direction) (steps : List Step) :
    ∀ (w w1 : World) (acc : Option Nat) (tLast : Nat),
      exec steps w = some w1 →
      lastEventTime d acc steps w = some tLast →
      (∀ a, acc = some a → d.stamp w = millis a) →
      d.stamp w1 = millis tLast := by
  induction steps with
  | nil =>
    intro w w1 acc tLast hrun hlast hacc
    have e : w1 = w := (Option.some.inj hrun).symm
    subst e
    exact hacc tLast hlast
  | cons s rest ih =>
    intro w w1 acc tLast hrun hlast hacc
    obtain ⟨op, t⟩ := s
    simp only [exec] at hrun
    cases hop : op.apply t w with
    | none => simp [hop] at hrun
    | some w2 =>
      simp only [hop] at hrun
      simp only [lastEventTime, hop, Option.getD_some] at hlast
      have hst := apply_stamp d op t w w2 hop
      refine ih w2 w1 _ tLast hrun hlast ?_
      intro a ha
      by_cases hev : isRelayEvent d w op = true
      · rw [if_pos hev] at ha hst
        rw [hst, ← Option.some.inj ha]
      · rw [if_neg hev] at ha hst
        rw [hst]
        exact hacc a ha

/-- C1 as stated fails: after one uplink event at 100 ms of uptime, a pass of
`ledControlTask` at 4294967396 ms (a full period of the 32-bit clock later, so
`now >= t_last` and `now - t_last >= 20`) reads the clock at 100 again and drives
`LED_TX_PIN` HIGH, not LOW. -/
theorem idle_for_clock_period_drives_high :
    exec [(Op.wsEvent WS_EVT_DATA [] 0, 100)] bootWorld
      = some (onWebSocketEvent WS_EVT_DATA [] 0 100 bootWorld) ∧
    lastEventTime Direction.uplink none [(Op.wsEvent WS_EVT_DATA [] 0, 100)] bootWorld
      = some 100 ∧
    100 ≤ Direction.uplink.tickTime 4294967396 4294967396 ∧
    ¬ (Direction.uplink.tickTime 4294967396 4294967396 - 100 < LED_ON_DURATION_MS) ∧
    (ledControlTaskTick 4294967396 4294967396
        (onWebSocketEvent WS_EVT_DATA [] 0 100 bootWorld)).pins Direction.uplink.led = HIGH ∧
    ¬ ((ledControlTaskTick 4294967396 4294967396
        (onWebSocketEvent WS_EVT_DATA [] 0 100 bootWorld)).pins Direction.uplink.led = LOW) := by
  refine ⟨rfl, rfl, ?_, ?_, ?_, ?_⟩ <;> decide

/-- C1, amended: for either direction `d`, after any execution that contains at least one
relay event of `d` (interleaved with any other operations), the last of them at uptime
`tLast`, a pass of `ledControlTask` that reads the clock for `d` at an uptime `now >= tLast`
with `now - tLast < 2^32` drives the LED of `d` HIGH if `now - tLast < 20` and LOW if
`now - tLast >= 20`, whatever the earlier events, also when the 32-bit clock wraps between
`tLast` and `now`; in particular, if the next event of `d` comes at an uptime `tNext` with
`tNext - tLast < 20`, a pass in between (`tLast <= now <= tNext`) drives the LED HIGH. -/
theorem debounce_rearm_within_clock_period (d : Direction) (steps : List Step) (w w1 : World)
    (tLast tRx tTx : Nat)
    (hrun : exec steps w = some w1)
    (hlast : lastEventTime d none steps w = some tLast)
    (hafter : tLast ≤ d.tickTime tRx tTx)
    (hperiod : d.tickTime tRx tTx - tLast < ULONG_MOD) :
    (ledControlTaskTick tRx tTx w1).pins d.led =
      (if d.tickTime tRx tTx - tLast < LED_ON_DURATION_MS then HIGH else LOW) ∧
    ∀ tNext : Nat, d.tickTime tRx tTx ≤ tNext →
      tNext - tLast < LED_ON_DURATION_MS →
      (ledControlTaskTick tRx tTx w1).pins d.led = HIGH := by
  have hst : d.stamp w1 = millis tLast :=
    exec_stamp d steps w w1 none tLast hrun hlast (fun a ha => by cases ha)
  have hpin : (ledControlTaskTick tRx tTx w1).pins d.led =
      (if d.tickTime tRx tTx - tLast < LED_ON_DURATION_MS then HIGH else LOW) := by
    rw [tick_pins_led, hst, ulSub_uptimes hafter hperiod]
  refine ⟨hpin, ?_⟩
  intro tNext hle hgap
  rw [hpin, if_pos]
  omega

/-- Witness of the amended C1: in `wrapBurstRun` the last downlink event is at 4294967290 ms
of uptime; a pass of the LED task at 4294967298 ms, 8 ms later, reads the wrapped clock at 2. -/
theorem debounce_rearm_within_clock_period_witness :
    millis (Direction.downlink.tickTime 4294967298 4294967299) < millis 4294967290 ∧
    (ledControlTaskTick 4294967298 4294967299
        ((exec wrapBurstRun bootWorld).getD bootWorld)).pins Direction.downlink.led =
      (if Direction.downlink.tickTime 4294967298 4294967299 - 4294967290 < LED_ON_DURATION_MS
       then HIGH else LOW) ∧
    ∀ tNext : Nat, Direction.downlink.tickTime 4294967298 4294967299 ≤ tNext →
      tNext - 4294967290 < LED_ON_DURATION_MS →
      (ledControlTaskTick 4294967298 4294967299
        ((exec wrapBurstRun bootWorld).getD bootWorld)).pins Direction.downlink.led = HIGH :=
  ⟨by decide,
   debounce_rearm_within_clock_period Direction.downlink wrapBurstRun bootWorld
     ((exec wrapBurstRun bootWorld).getD bootWorld) 4294967290 4294967298 4294967299
     rfl rfl (by decide) (by decide)⟩

/-! ## Monotonicity of the timestamps -/

theorem trace_head (steps : List Step) (w : World) : (trace steps w).head? = some w := by
  cases steps with
  | nil => rfl
  | cons s rest =>
    obtain ⟨op, t⟩ := s
    simp only [trace]
    cases op.apply t w <;> rfl

theorem stamps_chain (steps : List Step) :
    ∀ (w : World) (lo : Nat),
      w.lastTxTime ≤ lo → w.lastRxTime ≤ lo →
      (∀ s ∈ steps, lo ≤ millis s.2) →
      List.Sorted (fun a b => a ≤ b) (steps.map (fun s => millis s.2)) →
      StampsNeverDecrease (trace steps w) := by
  induction steps with
  | nil =>
    intro w lo _ _ _ _
    exact List.chain'_singleton w
  | cons s rest ih =>
    intro w lo htx hrx hlo hsorted
    obtain ⟨op, t⟩ := s
    simp only [trace]
    cases hop : op.apply t w with
    | none => exact List.chain'_singleton w
    | some w2 =>
      have ht : lo ≤ millis t := hlo (op, t) (List.mem_cons_self _ _)
      have hup := apply_stamp Direction.uplink op t w w2 hop
      have hdown := apply_stamp Direction.downlink op t w w2 hop
      simp only [Direction.stamp] at hup hdown
      have hrest : ∀ s ∈ rest, millis t ≤ millis s.2 := by
        intro s hs
        have hp := List.rel_of_sorted_cons hsorted
        exact hp (millis s.2) (List.mem_map_of_mem (fun s => millis s.2) hs)
      have hstep : (w.lastTxTime ≤ w2.lastTxTime ∧ w.lastRxTime ≤ w2.lastRxTime) ∧
          w2.lastTxTime ≤ millis t ∧ w2.lastRxTime ≤ millis t := by
        refine ⟨⟨?_, ?_⟩, ?_, ?_⟩
        · rw [hup]; split <;> omega
        · rw [hdown]; split <;> omega
        · rw [hup]; split <;> omega
        · rw [hdown]; split <;> omega
      have htail := ih w2 (millis t) hstep.2.1 hstep.2.2 hrest (List.Sorted.of_cons hsorted)
      refine List.chain'_cons'.mpr ⟨?_, htail⟩
      intro y hy
      rw [trace_head] at hy
      cases hy
      exact hstep.1

/-- C6 as stated fails: `wrapRun` starts from `lastTxTime = lastRxTime = 0` and its two
operations come in order of time (at 4294967295 ms and 4294967301 ms of uptime), yet
`lastTxTime` takes the values 0, 4294967295, 5: it decreases at the second operation. -/
theorem stamp_decreases_across_wrap :
    List.Sorted (fun a b => a ≤ b) (wrapRun.map (fun s => s.2)) ∧
    (trace wrapRun bootWorld).map (fun w => w.lastTxTime) = [0, 4294967295, 5] ∧
    ¬ StampsNeverDecrease (trace wrapRun bootWorld) := by
  refine ⟨by simp [wrapRun], by decide, ?_⟩
  intro h
  simp [StampsNeverDecrease, trace, wrapRun, Op.apply, ws_lastTxTime, bootWorld, millis,
    ULONG_MOD] at h

/-- C6, amended: along every execution (any interleaving of `onWebSocketEvent` calls, `loop()`
iterations, `ledControlTask` passes and arrivals of bytes) that starts from
`lastTxTime = lastRxTime = 0` and in which the clock readings of the successive operations
never decrease (the 32-bit millisecond clock does not wrap during it), neither `lastTxTime`
nor `lastRxTime` decreases from one operation to the next. -/
theorem stamps_never_decrease_without_wrap (steps : List Step) (w : World)
    (htx : w.lastTxTime = 0) (hrx : w.lastRxTime = 0)
    (hclock : List.Sorted (fun a b => a ≤ b) (steps.map (fun s => millis s.2))) :
    StampsNeverDecrease (trace steps w) :=
  stamps_chain steps w 0 (Nat.le_of_eq htx) (Nat.le_of_eq hrx)
    (fun _ _ => Nat.zero_le _) hclock

/-- Witness of the amended C6: `sampleRun` from the boot state. -/
theorem stamps_never_decrease_without_wrap_witness :
    StampsNeverDecrease (trace sampleRun bootWorld) :=
  stamps_never_decrease_without_wrap sampleRun bootWorld rfl rfl
    (by simp [sampleRun, millis, ULONG_MOD])

end WebSerial
